import Mathlib

/-!
# SecureAuthGateway — verification of the token lifecycle and RBAC pipeline

A shallow embedding, in Lean 4, of the authentication/authorization core of
the SecureAuthGateway repository:

* the Token Service (`src/services/token.service.ts`), with the `jsonwebtoken`
  library modelled symbolically (a signed token is a record carrying its
  payload, the secret it was signed with, the issuer/audience tags and the
  issued-at/expiry timestamps; verification checks the secret, the tags and
  the clock);
* the authentication middleware (`src/middleware/auth.middleware.ts`) and the
  RBAC middleware (`restrictTo`);
* the auth protocol handlers (`src/controllers/auth.controller.ts`) and the
  admin user-status handler (`src/controllers/user.controller.ts`);
* the client-side token orchestrator (`client/lib/axios.ts`): its storage
  functions and its single-flight refresh-on-401 state machine.

The Credential Store is the mongoose User model (`models/User.ts`, found in
the sources inside `transaction.controller.ts` lines 402–572 after the
document separator): the record type, the lookups and `comparePassword` are
embedded from that code, with the store itself modelled as a list of
records and a mongoose query as a list search.

Machine integers do not occur on the modelled paths; timestamps and status
codes are `Nat`.
-/

namespace SecureAuthGateway

/-! ## Data model: roles, errors, JWT payloads (src/types, part_004) -/

/-- The three-tier role enum `UserRole` from `src/types` (`USER`, `MERCHANT`,
`ADMIN`). -/
inductive UserRole
  | USER
  | MERCHANT
  | ADMIN
deriving DecidableEq, Repr

/-- The string value of a `UserRole` (the TS enum is string-valued). -/
def UserRole.str : UserRole → String
  | .USER => "USER"
  | .MERCHANT => "MERCHANT"
  | .ADMIN => "ADMIN"

/-- `AppError` from `src/middleware/errorHandler.ts`: an operational error
carrying a human-readable message and an HTTP status code. -/
structure AppError where
  message : String
  statusCode : Nat
deriving DecidableEq, Repr

/-- `JWTPayload` from `src/types`: the user claims embedded in an access
token.  The optional registered claims (`iat`, `exp`) and the
issuer/audience tags live in the token envelope (`Jwt` below), as they are
added by the signing library, not by the caller. -/
structure JWTPayload where
  userId : String
  email : String
  role : UserRole
deriving DecidableEq, Repr

/-- The payload actually carried by a signed token: either the full access
claims or the minimal refresh claims (`{ userId }` only).  This mirrors the
two shapes passed to `jwt.sign` in `token.service.ts`. -/
inductive Claims
  | access (p : JWTPayload)
  | refreshOnly (userId : String)
deriving DecidableEq, Repr

/-- JS property access `claims.userId`: both payload shapes carry it. -/
def Claims.userId : Claims → String
  | .access p => p.userId
  | .refreshOnly u => u

/-- JS property access `claims.role`: `undefined` on refresh-shaped claims. -/
def Claims.roleField : Claims → Option UserRole
  | .access p => some p.role
  | .refreshOnly _ => none

/-! ## Symbolic model of the `jsonwebtoken` library

`jwt.sign(payload, secret, {expiresIn, issuer, audience})` is modelled as
building a record of the payload together with the signing secret, the tags
and the computed timestamps.  `jwt.verify(token, secret, {issuer, audience})`
checks the secret (signature), the tags, and the expiry against the clock;
a mismatched secret or tag raises `JsonWebTokenError`, an expired token
raises `TokenExpiredError` (the library checks the signature before the
timestamps).  No `notBefore` option is ever passed by this code base, so
`NotBeforeError` cannot fire, but it is kept in the error enum because
`token.service.ts` pattern-matches on it. -/

/-- The error names thrown by the `jsonwebtoken` library. -/
inductive JwtError
  | TokenExpiredError
  | JsonWebTokenError
  | NotBeforeError
deriving DecidableEq, Repr

/-- Decidable equality of `Except` results (used to evaluate handler and
verifier outcomes on concrete inputs). -/
instance exceptDecEq {ε α : Type} [DecidableEq ε] [DecidableEq α] :
    DecidableEq (Except ε α) := fun x y =>
  match x, y with
  | .ok a, .ok b =>
      if h : a = b then .isTrue (by rw [h])
      else .isFalse (by intro hc; cases hc; exact h rfl)
  | .ok _, .error _ => .isFalse (by intro hc; cases hc)
  | .error _, .ok _ => .isFalse (by intro hc; cases hc)
  | .error a, .error b =>
      if h : a = b then .isTrue (by rw [h])
      else .isFalse (by intro hc; cases hc; exact h rfl)

/-- A signed token: payload plus signature secret, tags and timestamps. -/
structure Jwt where
  payload : Claims
  secret : String
  issuer : String
  audience : String
  iat : Nat
  exp : Nat
deriving DecidableEq, Repr

/-- `jwt.sign(payload, secret, { expiresIn, issuer, audience })` at clock
time `now` (seconds). -/
def jwtSign (payload : Claims) (secret : String) (expiresIn : Nat)
    (issuer audience : String) (now : Nat) : Jwt :=
  { payload := payload
    secret := secret
    issuer := issuer
    audience := audience
    iat := now
    exp := now + expiresIn }

/-- `jwt.verify(token, secret, { issuer, audience })` at clock time `now`:
signature first, then tags, then expiry. -/
def jwtVerify (t : Jwt) (secret issuer audience : String) (now : Nat) :
    Except JwtError Claims :=
  if t.secret ≠ secret then .error .JsonWebTokenError
  else if t.issuer ≠ issuer then .error .JsonWebTokenError
  else if t.audience ≠ audience then .error .JsonWebTokenError
  else if t.exp ≤ now then .error .TokenExpiredError
  else .ok t.payload

/-! ## Server configuration (`src/config`, part_007) -/

/-- The configuration fields consumed by the modelled paths.  The expiry
strings `'15m'` / `'7d'` are modelled as their second counts. -/
structure Config where
  JWT_ACCESS_SECRET : String
  JWT_REFRESH_SECRET : String
  JWT_ACCESS_EXPIRY : Nat
  JWT_REFRESH_EXPIRY : Nat
  NODE_ENV : String
  ALLOW_INSECURE_COOKIES : Bool
deriving DecidableEq, Repr

/-- The fallback configuration from `src/config` (env vars unset):
`'fallback-secret-change-in-production'`, 15-minute and 7-day expiries. -/
def defaultConfig : Config :=
  { JWT_ACCESS_SECRET := "fallback-secret-change-in-production"
    JWT_REFRESH_SECRET := "fallback-refresh-change-in-production"
    JWT_ACCESS_EXPIRY := 15 * 60
    JWT_REFRESH_EXPIRY := 7 * 24 * 60 * 60
    NODE_ENV := "development"
    ALLOW_INSECURE_COOKIES := false }

/-! ## Token Service (`src/services/token.service.ts`, part_006) -/

/-- `TokenService.generateAccessToken(payload)`: signs the full claims with
the access secret, the `secureauth-gateway` / `secureauth-api` tags and the
configured access expiry. -/
def generateAccessToken (cfg : Config) (p : JWTPayload) (now : Nat) : Jwt :=
  jwtSign (.access p) cfg.JWT_ACCESS_SECRET cfg.JWT_ACCESS_EXPIRY
    "secureauth-gateway" "secureauth-api" now

/-- `TokenService.generateRefreshToken({userId})`: signs the minimal claims
with the refresh secret and the configured refresh expiry. -/
def generateRefreshToken (cfg : Config) (userId : String) (now : Nat) : Jwt :=
  jwtSign (.refreshOnly userId) cfg.JWT_REFRESH_SECRET cfg.JWT_REFRESH_EXPIRY
    "secureauth-gateway" "secureauth-api" now

/-- `TokenService.verifyAccessToken` on an (already decoded) token value:
verifies with the access secret and maps each library error to the
corresponding 401 `AppError`. -/
def verifyAccessJwt (cfg : Config) (t : Jwt) (now : Nat) :
    Except AppError Claims :=
  match jwtVerify t cfg.JWT_ACCESS_SECRET "secureauth-gateway" "secureauth-api" now with
  | .ok c => .ok c
  | .error .TokenExpiredError => .error ⟨"Access token has expired", 401⟩
  | .error .JsonWebTokenError => .error ⟨"Invalid access token", 401⟩
  | .error .NotBeforeError => .error ⟨"Access token not yet valid", 401⟩

/-- `TokenService.verifyRefreshToken` on an (already decoded) token value:
verifies with the refresh secret, maps errors to 401 `AppError`s, and
returns only the `userId` claim (the TS code casts the decoded payload to
`Pick<JWTPayload, 'userId'>`). -/
def verifyRefreshJwt (cfg : Config) (t : Jwt) (now : Nat) :
    Except AppError String :=
  match jwtVerify t cfg.JWT_REFRESH_SECRET "secureauth-gateway" "secureauth-api" now with
  | .ok c => .ok c.userId
  | .error .TokenExpiredError =>
      .error ⟨"Refresh token has expired. Please log in again.", 401⟩
  | .error .JsonWebTokenError => .error ⟨"Invalid refresh token", 401⟩
  | .error .NotBeforeError => .error ⟨"Refresh token not yet valid", 401⟩

/-- String-level `TokenService.verifyAccessToken`: the wire form of a token
is a string; `decode` is the (partial) compact-serialization parser of the
`jsonwebtoken` library, and a string that is not a well-formed JWT fails
with `JsonWebTokenError`, surfaced as the same 401. -/
def verifyAccessTokenStr (cfg : Config) (decode : String → Option Jwt)
    (s : String) (now : Nat) : Except AppError Claims :=
  match decode s with
  | none => .error ⟨"Invalid access token", 401⟩
  | some t => verifyAccessJwt cfg t now

/-- String-level `TokenService.verifyRefreshToken` (see
`verifyAccessTokenStr`). -/
def verifyRefreshTokenStr (cfg : Config) (decode : String → Option Jwt)
    (s : String) (now : Nat) : Except AppError String :=
  match decode s with
  | none => .error ⟨"Invalid refresh token", 401⟩
  | some t => verifyRefreshJwt cfg t now

/-- JS truthiness of an optional string (`undefined` and `''` are falsy). -/
def jsTruthy : Option String → Bool
  | none => false
  | some s => s ≠ ""

/-! ## Credential Store (mongoose User model, `models/User.ts` =
`transaction.controller.ts` lines 402–572 after the document separator)

The store is modelled as a list of records; a mongoose query is a list
search.  The `UserSchema` options that shape the stored data: `email` has
`lowercase: true` (stored lower-cased), `password` is required only for
`provider = 'local'` (OAuth identities have none) and carries
`select: false`, `isActive` defaults to `true`, `timestamps: true` adds
`createdAt`/`updatedAt`. -/

/-- The `IUser` record (transaction.controller.ts lines 419–433), with the
fields the verified handlers consume; `googleId` and `updatedAt` are read
by none of them and are omitted.  `passwordHash` is the `password` field
(always stored hashed by the pre-save hook); `none` models the absent
password of an OAuth identity. -/
structure UserRec where
  _id : String
  username : String
  email : String
  passwordHash : Option String
  role : UserRole
  isActive : Bool
  provider : String
  createdAt : Nat
deriving DecidableEq, Repr

/-- `User.findById(id)` — mongoose lookup by `_id`.  The default
`select: false` projection of `password` is not modelled: no verified path
reads the hash off a `findById` result. -/
def findById (db : List UserRec) (id : String) : Option UserRec :=
  db.find? (fun u => u._id = id)

/-- `User.findOne({ email, provider: 'local' }).select('+password')` as
called by `login` (auth.controller.ts lines 151–154): lookup of the
local-provider identity by email, with `'+password'` overriding the
schema's `select: false` so the hash is populated. -/
def findLocalByEmail (db : List UserRec) (email : String) : Option UserRec :=
  db.find? (fun u => u.email = email ∧ u.provider = "local")

/-- `User.findOne({ email })` as called by `register`
(auth.controller.ts line 60): duplicate-email probe regardless of
provider. -/
def findByEmailAny (db : List UserRec) (email : String) : Option UserRec :=
  db.find? (fun u => u.email = email)

/-- `UserSchema.methods.comparePassword` (transaction.controller.ts lines
546–557): returns `false` when the document carries no password (JS
falsiness: absent or empty — the OAuth case), else bcrypt-compares the
candidate against the stored hash.  `compare` stands for the `bcryptjs`
`compare` primitive, kept abstract. -/
def comparePassword (compare : String → String → Bool) (u : UserRec)
    (candidate : String) : Bool :=
  if jsTruthy u.passwordHash then compare candidate (u.passwordHash.getD "")
  else false

/-! ## Middleware (`auth.middleware.ts`, `rbac.middleware.ts` = part_003) -/

/-- The request context the middleware operates on: the `Authorization`
header (if any) and the `req.user` slot populated by `protect`. -/
structure AuthedRequest where
  authorization : Option String
  user : Option Claims
deriving DecidableEq, Repr

/-- Outcome of an Express middleware: `next()` with the (possibly mutated)
request, or `next(error)`. -/
inductive MwResult
  | proceed (req : AuthedRequest)
  | fail (e : AppError)
deriving DecidableEq, Repr

/-- JS `String.prototype.split(sep)` on the character list: splitting an
empty string yields `[""]`, a trailing separator yields a trailing `""`
(so `'Bearer '.split(' ') = ['Bearer', '']`). -/
def splitChar (sep : Char) : List Char → List (List Char)
  | [] => [[]]
  | c :: cs =>
      let r := splitChar sep cs
      if c = sep then [] :: r
      else
        match r with
        | [] => [[c]]
        | h :: t => (c :: h) :: t

/-- JS `s.split(' ')`. -/
def jsSplitSpace (s : String) : List String :=
  (splitChar ' ' s.data).map String.mk

/-- JS `s.toLowerCase()` (character-wise, which coincides with JS on the
ASCII emails this code handles). -/
def jsToLower (s : String) : String :=
  ⟨s.data.map Char.toLower⟩

/-- JS `s.startsWith(p)`. -/
def jsStartsWith (s p : String) : Bool :=
  p.data.isPrefixOf s.data

/-- `authHeader.split(' ')[1]` as used by `protect`/`optionalAuth`
(`undefined` modelled as `""`, which the subsequent falsiness check
catches, exactly as in JS where both `undefined` and `''` are falsy). -/
def bearerToken (authHeader : String) : String :=
  ((jsSplitSpace authHeader).get? 1).getD ""

/-- The `protect` middleware (`auth.middleware.ts` lines 33–70): requires a
`Bearer`-scheme `Authorization` header with a nonempty token, verifies it
via `TokenService.verifyAccessToken`, and on success attaches the decoded
claims to `req.user`.  It takes no store argument: the source performs no
database access on this path. -/
def protect (cfg : Config) (decode : String → Option Jwt) (now : Nat)
    (req : AuthedRequest) : MwResult :=
  match req.authorization with
  | none =>
      .fail ⟨"Authentication required. Please provide a valid access token.", 401⟩
  | some authHeader =>
      if !(jsStartsWith authHeader "Bearer ") then
        .fail ⟨"Authentication required. Please provide a valid access token.", 401⟩
      else
        let token := bearerToken authHeader
        if token = "" then .fail ⟨"Access token is missing", 401⟩
        else
          match verifyAccessTokenStr cfg decode token now with
          | .error e => .fail e
          | .ok c => .proceed { req with user := some c }

/-- The 403 message built by `restrictTo`, naming the allowed roles
(`allowedRoles.join(', ')`). -/
def forbiddenMsg (allowedRoles : List UserRole) : String :=
  "Access denied. This action requires one of the following roles: " ++
    String.intercalate ", " (allowedRoles.map UserRole.str)

/-- The `restrictTo(...allowedRoles)` middleware (part_003 lines 35–65):
401 when no identity is attached, 403 (naming the allowed roles) when the
attached role is not a member of the allow-list, else proceed.  Membership
is `Array.includes` — exact, no hierarchy. -/
def restrictTo (allowedRoles : List UserRole) (req : AuthedRequest) : MwResult :=
  match req.user with
  | none => .fail ⟨"Authentication required. Please log in first.", 401⟩
  | some u =>
      if (match u.roleField with
          | some r => allowedRoles.contains r
          | none => false) then
        .proceed req
      else
        .fail ⟨forbiddenMsg allowedRoles, 403⟩

/-! ## Auth protocol handlers (`auth.controller.ts`) -/

/-- The cookie attributes passed to `res.cookie` (the fields the source
sets). -/
structure CookieOptions where
  httpOnly : Bool
  secure : Bool
  sameSite : String
  maxAge : Option Nat
deriving DecidableEq, Repr

/-- A cookie mutation performed by a handler: name, token value, options. -/
structure CookieSet where
  name : String
  value : Jwt
  options : CookieOptions
deriving DecidableEq, Repr

/-- Outcome of a request handler: either `sendSuccess` with an HTTP status
and a data payload, or a thrown `AppError`, together with the cookie
mutations performed on the response. -/
structure HandlerOutcome (α : Type) where
  result : Except AppError (Nat × α)
  cookiesSet : List CookieSet
deriving DecidableEq, Repr

/-- The cookie options literal in `register` (auth.controller.ts lines
92–103): hybrid HTTPS/HTTP configuration. -/
def registerCookieOptions (cfg : Config) : CookieOptions :=
  { httpOnly := true
    secure := if cfg.ALLOW_INSECURE_COOKIES then false else cfg.NODE_ENV = "production"
    sameSite := if cfg.ALLOW_INSECURE_COOKIES then "lax"
                else if cfg.NODE_ENV = "production" then "none" else "lax"
    maxAge := some (7 * 24 * 60 * 60 * 1000) }

/-- The cookie options literal in `login` (auth.controller.ts lines
188–199), written out at its own call site exactly as the source does. -/
def loginCookieOptions (cfg : Config) : CookieOptions :=
  { httpOnly := true
    secure := if cfg.ALLOW_INSECURE_COOKIES then false else cfg.NODE_ENV = "production"
    sameSite := if cfg.ALLOW_INSECURE_COOKIES then "lax"
                else if cfg.NODE_ENV = "production" then "none" else "lax"
    maxAge := some (7 * 24 * 60 * 60 * 1000) }

/-- The public identity fields returned by `register`/`login`. -/
structure PublicUser where
  id : String
  username : String
  email : String
  role : UserRole
deriving DecidableEq, Repr

/-- Response data of `register`/`login`: public identity + access token. -/
structure AuthData where
  user : PublicUser
  accessToken : Jwt
deriving DecidableEq, Repr

/-- Body of `POST /auth/register`. -/
structure RegisterRequest where
  username : Option String
  email : Option String
  password : Option String
  role : Option String
deriving DecidableEq, Repr

/-- `AuthController.register` (auth.controller.ts lines 36–122).
`hash` stands for the bcrypt pre-save hook of the User model
(transaction.controller.ts lines 515–537: `bcrypt.hash` with a 12-round
salt, abstracted over the salt drawn for this one save); `newId` is the id
mongoose assigns to the created record; `now` is the clock. -/
def register (cfg : Config) (hash : String → String) (db : List UserRec)
    (req : RegisterRequest) (now : Nat) (newId : String) :
    HandlerOutcome AuthData × List UserRec :=
  if ¬ (jsTruthy req.username ∧ jsTruthy req.email ∧ jsTruthy req.password) then
    (⟨.error ⟨"Please provide username, email, and password", 400⟩, []⟩, db)
  else
    let username := req.username.getD ""
    let email := req.email.getD ""
    let password := req.password.getD ""
    if password.length < 8 then
      (⟨.error ⟨"Password must be at least 8 characters long", 400⟩, []⟩, db)
    else
      let validRoles : List String := ["USER", "MERCHANT", "ADMIN"]
      let userRole : UserRole :=
        match req.role with
        | some "USER" => .USER
        | some "MERCHANT" => .MERCHANT
        | some "ADMIN" => .ADMIN
        | _ => .USER
      have _ := validRoles
      match findByEmailAny db (jsToLower email) with
      | some _ =>
          (⟨.error ⟨"An account with this email already exists", 400⟩, []⟩, db)
      | none =>
          let user : UserRec :=
            { _id := newId
              username := username
              email := jsToLower email
              passwordHash := some (hash password)
              role := userRole
              isActive := true
              provider := "local"
              createdAt := now }
          let accessToken := generateAccessToken cfg
            ⟨user._id, user.email, user.role⟩ now
          let refreshToken := generateRefreshToken cfg user._id now
          (⟨.ok (201, ⟨⟨user._id, user.username, user.email, user.role⟩, accessToken⟩),
             [⟨"jwt", refreshToken, registerCookieOptions cfg⟩]⟩,
           db ++ [user])

/-- Body of `POST /auth/login`. -/
structure LoginRequest where
  email : Option String
  password : Option String
deriving DecidableEq, Repr

/-- `AuthController.login` (auth.controller.ts lines 141–213).  The
password check is `user.comparePassword(password)` — the User model's
instance method embedded above as `comparePassword`, with `compare`
standing for `bcrypt.compare`. -/
def login (cfg : Config) (compare : String → String → Bool)
    (db : List UserRec) (req : LoginRequest) (now : Nat) :
    HandlerOutcome AuthData :=
  if ¬ (jsTruthy req.email ∧ jsTruthy req.password) then
    ⟨.error ⟨"Please provide email and password", 400⟩, []⟩
  else
    let email := req.email.getD ""
    let password := req.password.getD ""
    match findLocalByEmail db (jsToLower email) with
    | none => ⟨.error ⟨"Invalid email or password", 401⟩, []⟩
    | some user =>
        let isPasswordCorrect := comparePassword compare user password
        if !isPasswordCorrect then
          ⟨.error ⟨"Invalid email or password", 401⟩, []⟩
        else if !user.isActive then
          ⟨.error ⟨"Your account has been deactivated. Please contact support.", 403⟩, []⟩
        else
          let accessToken := generateAccessToken cfg
            ⟨user._id, user.email, user.role⟩ now
          let refreshToken := generateRefreshToken cfg user._id now
          ⟨.ok (200, ⟨⟨user._id, user.username, user.email, user.role⟩, accessToken⟩),
            [⟨"jwt", refreshToken, loginCookieOptions cfg⟩]⟩

/-- `POST /auth/refresh` request: the cookie jar plus body/header slots
that the handler never reads (kept to state that the decision is
cookie-only). -/
structure RefreshRequest where
  cookies : List (String × String)
  bodyToken : Option String
  headerToken : Option String
deriving DecidableEq, Repr

/-- `req.cookies?.name` — first cookie with the given name. -/
def cookieLookup (cookies : List (String × String)) (name : String) :
    Option String :=
  (cookies.find? (fun kv => kv.1 = name)).map (·.2)

/-- `AuthController.refreshToken` (auth.controller.ts lines 272–318):
cookie `jwt` → verify refresh token → re-fetch identity → issue a new
access token only (no cookie is set: the refresh token is not rotated). -/
def refreshTokenHandler (cfg : Config) (decode : String → Option Jwt)
    (db : List UserRec) (req : RefreshRequest) (now : Nat) :
    HandlerOutcome Jwt :=
  match cookieLookup req.cookies "jwt" with
  | none => ⟨.error ⟨"Refresh token not found. Please log in again.", 401⟩, []⟩
  | some tokStr =>
      match verifyRefreshTokenStr cfg decode tokStr now with
      | .error e => ⟨.error e, []⟩
      | .ok uid =>
          match findById db uid with
          | none => ⟨.error ⟨"User no longer exists. Please log in again.", 401⟩, []⟩
          | some user =>
              if !user.isActive then
                ⟨.error ⟨"Your account has been deactivated. Please contact support.", 403⟩, []⟩
              else
                ⟨.ok (200, generateAccessToken cfg ⟨user._id, user.email, user.role⟩ now), []⟩

/-- Response data of `GET /auth/me`: the refetched record's fields. -/
structure MeData where
  id : String
  username : String
  email : String
  role : UserRole
  isActive : Bool
  createdAt : Nat
deriving DecidableEq, Repr

/-- `AuthController.getMe` (auth.controller.ts lines 335–365): requires the
attached claims, then refetches the record by the token's `userId` and
returns the record's current fields (404 if the subject no longer exists). -/
def getMe (db : List UserRec) (user : Option Claims) : HandlerOutcome MeData :=
  match user with
  | none => ⟨.error ⟨"User not found in request", 401⟩, []⟩
  | some c =>
      match findById db c.userId with
      | none => ⟨.error ⟨"User not found", 404⟩, []⟩
      | some u =>
          ⟨.ok (200, ⟨u._id, u.username, u.email, u.role, u.isActive, u.createdAt⟩), []⟩

/-! ## Admin user management (`user.controller.ts` = part_002) -/

/-- A JSON body value for `isActive` as seen by `typeof`: a boolean or
anything else. -/
inductive JsValue
  | jsBool (b : Bool)
  | jsOther
deriving DecidableEq, Repr

/-- `PATCH /users/:id/status` request: the `:id` path parameter (always
present on this route), the body's `isActive` value, and the caller
attached by `protect`. -/
structure StatusRequest where
  paramsId : String
  bodyIsActive : JsValue
  user : Option Claims
deriving DecidableEq, Repr

/-- Response data of `updateUserStatus`. -/
structure StatusData where
  id : String
  username : String
  email : String
  role : UserRole
  isActive : Bool
deriving DecidableEq, Repr

/-- `UserController.updateUserStatus` (part_002 lines 73–123): validates
`isActive`, rejects self-targeting (before any store access), re-fetches
the target, refuses to ban another admin, else persists the flag.  Returns
the outcome together with the store as left by the handler. -/
def updateUserStatus (db : List UserRec) (req : StatusRequest) :
    HandlerOutcome StatusData × List UserRec :=
  match req.bodyIsActive with
  | .jsOther => (⟨.error ⟨"isActive must be a boolean value", 400⟩, []⟩, db)
  | .jsBool isActive =>
      if (req.user.map Claims.userId) = some req.paramsId then
        (⟨.error ⟨"Admins cannot ban themselves", 400⟩, []⟩, db)
      else
        match findById db req.paramsId with
        | none => (⟨.error ⟨"User not found", 404⟩, []⟩, db)
        | some user =>
            if user.role = .ADMIN ∧ !isActive then
              (⟨.error ⟨"Cannot ban other administrators", 403⟩, []⟩, db)
            else
              let updated := { user with isActive := isActive }
              (⟨.ok (200, ⟨updated._id, updated.username, updated.email,
                           updated.role, updated.isActive⟩), []⟩,
               db.map (fun v => if v._id = user._id then updated else v))

/-! ## Client-side token storage (`client/lib/axios.ts` lines 56–76 and
176–198)

The browser storage state visible to the module: the module-level
`accessToken` variable (transient memory), `sessionStorage` (transient,
session-scoped) and `localStorage` (durable). -/

/-- Client storage state. -/
structure ClientStorage where
  memoryToken : Option String
  sessionStorage : List (String × String)
  localStorage : List (String × String)
deriving DecidableEq, Repr

/-- `storage.getItem(key)`. -/
def storageGet (store : List (String × String)) (key : String) : Option String :=
  (store.find? (fun kv => kv.1 = key)).map (·.2)

/-- `storage.setItem(key, v)` (replace or append). -/
def storageSet (store : List (String × String)) (key v : String) :
    List (String × String) :=
  if (store.find? (fun kv => kv.1 = key)).isSome then
    store.map (fun kv => if kv.1 = key then (key, v) else kv)
  else
    store ++ [(key, v)]

/-- `storage.removeItem(key)`. -/
def storageRemove (store : List (String × String)) (key : String) :
    List (String × String) :=
  store.filter (fun kv => kv.1 ≠ key)

/-- The request interceptor (axios.ts lines 60–76): resolves the token as
`accessToken || localStorage.getItem('accessToken')`, attaches it as a
`Bearer` header if present, and copies it into the in-memory variable when
it was loaded from storage.  Returns the `Authorization` header attached to
the outgoing request (if any) and the storage state after the call. -/
def requestInterceptor (st : ClientStorage) :
    Option String × ClientStorage :=
  let token : Option String :=
    match st.memoryToken with
    | some t => some t
    | none => storageGet st.localStorage "accessToken"
  match token with
  | none => (none, st)
  | some t =>
      (some ("Bearer " ++ t),
       { st with memoryToken :=
           match st.memoryToken with
           | none => some t
           | some m => some m })

/-- `setTokens(access)` (axios.ts lines 176–183): in-memory variable plus a
`sessionStorage` backup. -/
def setTokens (st : ClientStorage) (access : String) : ClientStorage :=
  { st with memoryToken := some access
            sessionStorage := storageSet st.sessionStorage "accessToken" access }

/-- `clearTokens()` (axios.ts lines 192–198). -/
def clearTokens (st : ClientStorage) : ClientStorage :=
  { st with memoryToken := none
            sessionStorage := storageRemove st.sessionStorage "accessToken" }

/-! ## Client-side single-flight refresh orchestrator (axios.ts lines
22–42 and 104–171)

The response interceptor is modelled as a state machine over the module's
shared mutable state (`isRefreshing`, `failedQueue`, the token storage) and
the per-call phase.  Each step is one synchronous block of the JS event
loop, which runs atomically:

* `handle401 i` — call `i`'s interceptor callback runs on a 401 response
  it has not retried yet: it either enqueues the call (refresh already in
  flight) or becomes the refresh initiator (sets `isRefreshing`, issues the
  single `POST /auth/refresh`);
* `refreshOk tok` — the initiator's continuation after the refresh
  resolves: `setTokens`, `processQueue(null, tok)` (every queued
  continuation resolves with the same token and retries once), own retry,
  `finally { isRefreshing = false }` — one synchronous block;
* `refreshErr e` — the catch path: `processQueue(e, null)` rejects every
  queued continuation, `clearTokens()`, `isRefreshing = false`. -/

/-- Phase of one outbound call in a refresh cycle. -/
inductive CallPhase
  | got401
  | queuedUp
  | initiating
  | retried (tok : String)
  | rejectedWith (err : String)
deriving DecidableEq, Repr

/-- The orchestrator's shared state plus per-call phases.  `refreshCalls`
counts invocations of the refresh endpoint. -/
structure OrchState where
  phase : Nat → CallPhase
  isRefreshing : Bool
  failedQueue : List Nat
  refreshCalls : Nat
  store : ClientStorage

/-- Events of the refresh cycle. -/
inductive OrchEvent
  | handle401 (i : Nat)
  | refreshOk (tok : String)
  | refreshErr (err : String)

/-- One atomic event-loop block of the response interceptor; `none` when
the event is not enabled in the given state. -/
def orchStep (st : OrchState) : OrchEvent → Option OrchState
  | .handle401 i =>
      if st.phase i = .got401 then
        if st.isRefreshing then
          some { st with
                 phase := fun j => if j = i then .queuedUp else st.phase j
                 failedQueue := st.failedQueue ++ [i] }
        else
          some { st with
                 phase := fun j => if j = i then .initiating else st.phase j
                 isRefreshing := true
                 refreshCalls := st.refreshCalls + 1 }
      else none
  | .refreshOk tok =>
      if st.isRefreshing then
        some { phase := fun j =>
                 if st.phase j = .initiating ∨ j ∈ st.failedQueue then .retried tok
                 else st.phase j
               isRefreshing := false
               failedQueue := []
               refreshCalls := st.refreshCalls
               store := setTokens st.store tok }
      else none
  | .refreshErr err =>
      if st.isRefreshing then
        some { phase := fun j =>
                 if st.phase j = .initiating ∨ j ∈ st.failedQueue then .rejectedWith err
                 else st.phase j
               isRefreshing := false
               failedQueue := []
               refreshCalls := st.refreshCalls
               store := clearTokens st.store }
      else none

/-- Run a sequence of events, failing if any event is not enabled. -/
def runEvents (st : OrchState) : List OrchEvent → Option OrchState
  | [] => some st
  | e :: es =>
      match orchStep st e with
      | none => none
      | some st' => runEvents st' es

/-- Initial state of a refresh cycle: `n` outbound calls have all received
a 401 at the same logical instant, no refresh is in flight, the queue is
empty, no token is stored. -/
def initOrch : OrchState :=
  { phase := fun _ => .got401
    isRefreshing := false
    failedQueue := []
    refreshCalls := 0
    store := ⟨none, [], []⟩ }

/-! ## Theorems -/

/-- C2: for every valid `(identityId, email, role)` triple, verifying the
token produced by `generateAccessToken` before its 15-minute expiry has
passed succeeds and returns exactly the same triple — the decoded user
claims are precisely `(userId, email, role)`, so no claim is lost and no
additional user claim leaks. -/
theorem access_token_roundtrip (cfg : Config) (p : JWTPayload) (t0 t1 : Nat)
    (hexp : cfg.JWT_ACCESS_EXPIRY = 15 * 60)
    (hfresh : t1 < t0 + 15 * 60) :
    verifyAccessJwt cfg (generateAccessToken cfg p t0) t1 = .ok (.access p) := by
  simp only [verifyAccessJwt, generateAccessToken, jwtSign, jwtVerify]
  have hlt : ¬ (t0 + cfg.JWT_ACCESS_EXPIRY ≤ t1) := by omega
  simp [hlt]

/-- Witness for C2 at a concrete input. -/
theorem access_token_roundtrip_witness :
    defaultConfig.JWT_ACCESS_EXPIRY = 15 * 60 ∧ 100 < 0 + 15 * 60 ∧
    verifyAccessJwt defaultConfig
      (generateAccessToken defaultConfig ⟨"u1", "alice@x.com", .USER⟩ 0) 100 =
      .ok (.access ⟨"u1", "alice@x.com", .USER⟩) :=
  ⟨rfl, by decide,
   access_token_roundtrip defaultConfig ⟨"u1", "alice@x.com", .USER⟩ 0 100
     rfl (by decide)⟩

/-- C3: with distinct access/refresh secrets (secret separation), a token
minted by `generateAccessToken` is rejected by `verifyRefreshToken`, and a
token minted by `generateRefreshToken` is rejected by `verifyAccessToken`;
in both directions the failure is the 401 invalid-token `AppError`. -/
theorem secret_separation (cfg : Config)
    (hsep : cfg.JWT_ACCESS_SECRET ≠ cfg.JWT_REFRESH_SECRET)
    (p : JWTPayload) (uid : String) (t0 t1 t2 t3 : Nat) :
    verifyRefreshJwt cfg (generateAccessToken cfg p t0) t1 =
      .error ⟨"Invalid refresh token", 401⟩ ∧
    verifyAccessJwt cfg (generateRefreshToken cfg uid t2) t3 =
      .error ⟨"Invalid access token", 401⟩ := by
  constructor
  · simp [verifyRefreshJwt, generateAccessToken, jwtSign, jwtVerify, hsep]
  · simp [verifyAccessJwt, generateRefreshToken, jwtSign, jwtVerify, Ne.symm hsep]

/-- Witness for C3 at a concrete input. -/
theorem secret_separation_witness :
    defaultConfig.JWT_ACCESS_SECRET ≠ defaultConfig.JWT_REFRESH_SECRET ∧
    (verifyRefreshJwt defaultConfig
        (generateAccessToken defaultConfig ⟨"u1", "alice@x.com", .USER⟩ 0) 1 =
        .error ⟨"Invalid refresh token", 401⟩ ∧
     verifyAccessJwt defaultConfig
        (generateRefreshToken defaultConfig "u1" 2) 3 =
        .error ⟨"Invalid access token", 401⟩) :=
  ⟨by decide,
   secret_separation defaultConfig (by decide) ⟨"u1", "alice@x.com", .USER⟩ "u1" 0 1 2 3⟩

/-- C4: `restrictTo(allowedRoles...)` fails with 401 when no identity is
attached; fails with 403, the message naming the allowed roles, when the
attached role is not a member of the allow-list (exact membership, no
hierarchy — in particular `ADMIN` against a list not containing it); and
otherwise proceeds to the next handler. -/
theorem restrictTo_allowlist (allowedRoles : List UserRole) (req : AuthedRequest) :
    (req.user = none →
       restrictTo allowedRoles req =
         .fail ⟨"Authentication required. Please log in first.", 401⟩) ∧
    (∀ u r, req.user = some u → u.roleField = some r → r ∉ allowedRoles →
       restrictTo allowedRoles req = .fail ⟨forbiddenMsg allowedRoles, 403⟩) ∧
    (∀ u r, req.user = some u → u.roleField = some r → r ∈ allowedRoles →
       restrictTo allowedRoles req = .proceed req) := by
  refine ⟨fun h => by simp [restrictTo, h], ?_, ?_⟩
  · intro u r hu hr hmem
    simp only [restrictTo, hu, hr]
    rw [if_neg]
    simp only [List.contains, List.elem_iff]
    exact hmem
  · intro u r hu hr hmem
    simp only [restrictTo, hu, hr]
    rw [if_pos]
    simp only [List.contains, List.elem_iff]
    exact hmem

/-- Witness for C4: a USER and an ADMIN are both denied with 403 by a
MERCHANT-only list (no hierarchy), MERCHANT passes, and a request with no
attached identity gets 401. -/
theorem restrictTo_allowlist_witness :
    restrictTo [.MERCHANT] ⟨none, none⟩ =
      .fail ⟨"Authentication required. Please log in first.", 401⟩ ∧
    restrictTo [.MERCHANT] ⟨none, some (.access ⟨"u1", "e", .USER⟩)⟩ =
      .fail ⟨forbiddenMsg [.MERCHANT], 403⟩ ∧
    restrictTo [.MERCHANT] ⟨none, some (.access ⟨"a1", "e", .ADMIN⟩)⟩ =
      .fail ⟨forbiddenMsg [.MERCHANT], 403⟩ ∧
    restrictTo [.MERCHANT] ⟨none, some (.access ⟨"m1", "e", .MERCHANT⟩)⟩ =
      .proceed ⟨none, some (.access ⟨"m1", "e", .MERCHANT⟩)⟩ :=
  ⟨(restrictTo_allowlist [.MERCHANT] ⟨none, none⟩).1 rfl,
   (restrictTo_allowlist [.MERCHANT] _).2.1 _ .USER rfl rfl (by decide),
   (restrictTo_allowlist [.MERCHANT] _).2.1 _ .ADMIN rfl rfl (by decide),
   (restrictTo_allowlist [.MERCHANT] _).2.2 _ .MERCHANT rfl rfl (by decide)⟩

/-- Helper: every error produced by the string-level access-token
verification carries HTTP status 401. -/
theorem verifyAccessTokenStr_error_status (cfg : Config)
    (decode : String → Option Jwt) (s : String) (now : Nat) (e : AppError)
    (he : verifyAccessTokenStr cfg decode s now = .error e) :
    e.statusCode = 401 := by
  unfold verifyAccessTokenStr at he
  split at he
  · injection he with h
    subst h
    rfl
  · unfold verifyAccessJwt at he
    split at he
    · exact absurd he (by simp)
    all_goals injection he with h
    all_goals subst h
    all_goals rfl

/-- C5: `protect` fails with a 401 error when the `Authorization` header is
missing, does not use the `Bearer` scheme, carries an empty token, or
carries a token that fails verification; when the token verifies, the
decoded claims are attached to `req.user` and the request proceeds.  The
middleware takes no store argument, so the decision is independent of the
credential store: in particular a verifying token whose subject is marked
inactive in any store still authenticates. -/
theorem protect_auth_gate (cfg : Config) (decode : String → Option Jwt) (now : Nat) :
    (∀ req : AuthedRequest, req.authorization = none →
       protect cfg decode now req =
         .fail ⟨"Authentication required. Please provide a valid access token.", 401⟩) ∧
    (∀ req h, req.authorization = some h → jsStartsWith h "Bearer " = false →
       protect cfg decode now req =
         .fail ⟨"Authentication required. Please provide a valid access token.", 401⟩) ∧
    (∀ req h, req.authorization = some h → jsStartsWith h "Bearer " = true →
       bearerToken h = "" →
       protect cfg decode now req = .fail ⟨"Access token is missing", 401⟩) ∧
    (∀ req h e, req.authorization = some h → jsStartsWith h "Bearer " = true →
       bearerToken h ≠ "" →
       verifyAccessTokenStr cfg decode (bearerToken h) now = .error e →
       protect cfg decode now req = .fail e ∧ e.statusCode = 401) ∧
    (∀ req h c, req.authorization = some h → jsStartsWith h "Bearer " = true →
       bearerToken h ≠ "" →
       verifyAccessTokenStr cfg decode (bearerToken h) now = .ok c →
       protect cfg decode now req = .proceed { req with user := some c }) ∧
    (∀ (db : List UserRec) (u : UserRec) req h c, u ∈ db → u.isActive = false →
       c.userId = u._id → req.authorization = some h →
       jsStartsWith h "Bearer " = true → bearerToken h ≠ "" →
       verifyAccessTokenStr cfg decode (bearerToken h) now = .ok c →
       protect cfg decode now req = .proceed { req with user := some c }) := by
  refine ⟨fun req hreq => by simp [protect, hreq], ?_, ?_, ?_, ?_, ?_⟩
  · intro req h hreq hb
    simp [protect, hreq, hb]
  · intro req h hreq hb htok
    simp [protect, hreq, hb, htok]
  · intro req h e hreq hb htok hv
    refine ⟨?_, verifyAccessTokenStr_error_status cfg decode _ now e hv⟩
    simp [protect, hreq, hb, htok, hv]
  · intro req h c hreq hb htok hv
    simp [protect, hreq, hb, htok, hv]
  · intro db u req h c _ _ _ hreq hb htok hv
    simp [protect, hreq, hb, htok, hv]

/-- Witness for C5 at concrete inputs: one header per failure mode, a
decodable valid token that authenticates, and the same token still
authenticating while its subject is inactive in the store. -/
theorem protect_auth_gate_witness :
    (protect defaultConfig (fun _ => none) 0 ⟨none, none⟩ =
      .fail ⟨"Authentication required. Please provide a valid access token.", 401⟩) ∧
    (protect defaultConfig (fun _ => none) 0 ⟨some "Token abc", none⟩ =
      .fail ⟨"Authentication required. Please provide a valid access token.", 401⟩) ∧
    (protect defaultConfig (fun _ => none) 0 ⟨some "Bearer ", none⟩ =
      .fail ⟨"Access token is missing", 401⟩) ∧
    (protect defaultConfig (fun _ => none) 0 ⟨some "Bearer junk", none⟩ =
      .fail ⟨"Invalid access token", 401⟩) ∧
    (protect defaultConfig
        (fun s => if s = "tok" then
            some (generateAccessToken defaultConfig ⟨"u1", "alice@x.com", .USER⟩ 0)
          else none) 10 ⟨some "Bearer tok", none⟩ =
      .proceed ⟨some "Bearer tok", some (.access ⟨"u1", "alice@x.com", .USER⟩)⟩) := by
  refine ⟨(protect_auth_gate _ _ 0).1 _ rfl,
          (protect_auth_gate _ _ 0).2.1 _ _ rfl (by decide),
          (protect_auth_gate _ _ 0).2.2.1 _ _ rfl (by decide) (by decide),
          ((protect_auth_gate _ _ 0).2.2.2.1 _ _
             ⟨"Invalid access token", 401⟩ rfl (by decide) (by decide) (by decide)).1, ?_⟩
  exact (protect_auth_gate _ _ 10).2.2.2.2.2
    [⟨"u1", "alice", "alice@x.com", none, .USER, false, "local", 0⟩]
    ⟨"u1", "alice", "alice@x.com", none, .USER, false, "local", 0⟩
    _ _ _ (by decide) rfl rfl rfl (by decide) (by decide) (by decide)

/-- Helper: every error produced by the string-level refresh-token
verification carries HTTP status 401. -/
theorem verifyRefreshTokenStr_error_status (cfg : Config)
    (decode : String → Option Jwt) (s : String) (now : Nat) (e : AppError)
    (he : verifyRefreshTokenStr cfg decode s now = .error e) :
    e.statusCode = 401 := by
  unfold verifyRefreshTokenStr at he
  split at he
  · injection he with h
    subst h
    rfl
  · unfold verifyRefreshJwt at he
    split at he
    · exact absurd he (by simp)
    all_goals injection he with h
    all_goals subst h
    all_goals rfl

/-- C6: `POST /auth/refresh` mints a new access token iff the request's
cookie jar (the body/header slots are never read) carries a refresh token
that verifies and whose subject still exists and is active; the failures
are 401 for a missing cookie, a failed verification or a vanished subject,
and 403 for an inactive subject.  On success the outcome carries the new
access token only and sets no cookie (the refresh token is not rotated). -/
theorem refresh_mint_iff (cfg : Config) (decode : String → Option Jwt)
    (db : List UserRec) (req : RefreshRequest) (now : Nat) :
    (∀ b h b' h', refreshTokenHandler cfg decode db ⟨req.cookies, b, h⟩ now =
       refreshTokenHandler cfg decode db ⟨req.cookies, b', h'⟩ now) ∧
    (cookieLookup req.cookies "jwt" = none →
       refreshTokenHandler cfg decode db req now =
         ⟨.error ⟨"Refresh token not found. Please log in again.", 401⟩, []⟩) ∧
    (∀ s e, cookieLookup req.cookies "jwt" = some s →
       verifyRefreshTokenStr cfg decode s now = .error e →
       refreshTokenHandler cfg decode db req now = ⟨.error e, []⟩ ∧
         e.statusCode = 401) ∧
    (∀ s uid, cookieLookup req.cookies "jwt" = some s →
       verifyRefreshTokenStr cfg decode s now = .ok uid →
       findById db uid = none →
       refreshTokenHandler cfg decode db req now =
         ⟨.error ⟨"User no longer exists. Please log in again.", 401⟩, []⟩) ∧
    (∀ s uid u, cookieLookup req.cookies "jwt" = some s →
       verifyRefreshTokenStr cfg decode s now = .ok uid →
       findById db uid = some u → u.isActive = false →
       refreshTokenHandler cfg decode db req now =
         ⟨.error ⟨"Your account has been deactivated. Please contact support.", 403⟩, []⟩) ∧
    (∀ s uid u, cookieLookup req.cookies "jwt" = some s →
       verifyRefreshTokenStr cfg decode s now = .ok uid →
       findById db uid = some u → u.isActive = true →
       refreshTokenHandler cfg decode db req now =
         ⟨.ok (200, generateAccessToken cfg ⟨u._id, u.email, u.role⟩ now), []⟩) := by
  refine ⟨fun b h b' h' => rfl, fun hc => by simp [refreshTokenHandler, hc],
          ?_, ?_, ?_, ?_⟩
  · intro s e hc hv
    exact ⟨by simp [refreshTokenHandler, hc, hv],
           verifyRefreshTokenStr_error_status cfg decode s now e hv⟩
  · intro s uid hc hv hf
    simp [refreshTokenHandler, hc, hv, hf]
  · intro s uid u hc hv hf hact
    simp [refreshTokenHandler, hc, hv, hf, hact]
  · intro s uid u hc hv hf hact
    simp [refreshTokenHandler, hc, hv, hf, hact]

/-- Witness for C6, one concrete request per branch: no cookie, an
undecodable cookie, a vanished subject, an inactive subject, an active
subject (fresh access token, no cookie set). -/
theorem refresh_mint_iff_witness :
    (refreshTokenHandler defaultConfig (fun _ => none) [] ⟨[], none, none⟩ 0 =
       ⟨.error ⟨"Refresh token not found. Please log in again.", 401⟩, []⟩) ∧
    (refreshTokenHandler defaultConfig (fun _ => none) [] ⟨[("jwt", "bad")], none, none⟩ 0 =
       ⟨.error ⟨"Invalid refresh token", 401⟩, []⟩) ∧
    (refreshTokenHandler defaultConfig
       (fun s => if s = "r1" then some (generateRefreshToken defaultConfig "u1" 0) else none)
       [] ⟨[("jwt", "r1")], none, none⟩ 10 =
       ⟨.error ⟨"User no longer exists. Please log in again.", 401⟩, []⟩) ∧
    (refreshTokenHandler defaultConfig
       (fun s => if s = "r1" then some (generateRefreshToken defaultConfig "u1" 0) else none)
       [⟨"u1", "alice", "alice@x.com", none, .USER, false, "local", 0⟩]
       ⟨[("jwt", "r1")], none, none⟩ 10 =
       ⟨.error ⟨"Your account has been deactivated. Please contact support.", 403⟩, []⟩) ∧
    (refreshTokenHandler defaultConfig
       (fun s => if s = "r1" then some (generateRefreshToken defaultConfig "u1" 0) else none)
       [⟨"u1", "alice", "alice@x.com", none, .USER, true, "local", 0⟩]
       ⟨[("jwt", "r1")], none, none⟩ 10 =
       ⟨.ok (200, generateAccessToken defaultConfig ⟨"u1", "alice@x.com", .USER⟩ 10), []⟩) :=
  ⟨(refresh_mint_iff _ _ _ _ 0).2.1 rfl,
   ((refresh_mint_iff _ _ _ _ 0).2.2.1 "bad" ⟨"Invalid refresh token", 401⟩
      (by decide) (by decide)).1,
   (refresh_mint_iff _ _ _ _ 10).2.2.2.1 "r1" "u1" (by decide) (by decide) (by decide),
   (refresh_mint_iff _ _ _ _ 10).2.2.2.2.1 "r1" "u1"
     ⟨"u1", "alice", "alice@x.com", none, .USER, false, "local", 0⟩
     (by decide) (by decide) (by decide) (by decide),
   (refresh_mint_iff _ _ _ _ 10).2.2.2.2.2 "r1" "u1"
     ⟨"u1", "alice", "alice@x.com", none, .USER, true, "local", 0⟩
     (by decide) (by decide) (by decide) (by decide)⟩

/-- C7: `login` answers 401 with the identical message "Invalid email or
password" both when no local-provider identity matches the email and when
the password comparison fails on a found identity; a correct password on a
deactivated identity gets 403; a correct password on an active identity
yields 200 with both tokens, the refresh cookie being set with exactly the
same options as `register` sets it. -/
theorem login_responses (cfg : Config) (compare : String → String → Bool)
    (db : List UserRec) (req : LoginRequest) (now : Nat)
    (hemail : jsTruthy req.email = true) (hpw : jsTruthy req.password = true) :
    (findLocalByEmail db (jsToLower (req.email.getD "")) = none →
       login cfg compare db req now = ⟨.error ⟨"Invalid email or password", 401⟩, []⟩) ∧
    (∀ u, findLocalByEmail db (jsToLower (req.email.getD "")) = some u →
       comparePassword compare u (req.password.getD "") = false →
       login cfg compare db req now = ⟨.error ⟨"Invalid email or password", 401⟩, []⟩) ∧
    (∀ u, findLocalByEmail db (jsToLower (req.email.getD "")) = some u →
       comparePassword compare u (req.password.getD "") = true →
       u.isActive = false →
       login cfg compare db req now =
         ⟨.error ⟨"Your account has been deactivated. Please contact support.", 403⟩, []⟩) ∧
    (∀ u, findLocalByEmail db (jsToLower (req.email.getD "")) = some u →
       comparePassword compare u (req.password.getD "") = true →
       u.isActive = true →
       login cfg compare db req now =
         ⟨.ok (200, ⟨⟨u._id, u.username, u.email, u.role⟩,
             generateAccessToken cfg ⟨u._id, u.email, u.role⟩ now⟩),
           [⟨"jwt", generateRefreshToken cfg u._id now, loginCookieOptions cfg⟩]⟩ ∧
       loginCookieOptions cfg = registerCookieOptions cfg) := by
  refine ⟨fun hf => by simp [login, hemail, hpw, hf], ?_, ?_, ?_⟩
  · intro u hf hcmp
    simp [login, hemail, hpw, hf, hcmp]
  · intro u hf hcmp hact
    simp [login, hemail, hpw, hf, hcmp, hact]
  · intro u hf hcmp hact
    exact ⟨by simp [login, hemail, hpw, hf, hcmp, hact], rfl⟩

/-- Witness for C7: a concrete store in which an unknown email and a wrong
password yield the same 401 message, a deactivated identity with the right
password yields 403, and an active identity logs in with the register-style
cookie. -/
theorem login_responses_witness :
    (login defaultConfig (fun p h => h = "hash-" ++ p)
       [] ⟨some "alice@x.com", some "pw"⟩ 0 =
       ⟨.error ⟨"Invalid email or password", 401⟩, []⟩) ∧
    (login defaultConfig (fun p h => h = "hash-" ++ p)
       [⟨"u1", "alice", "alice@x.com", some "hash-secret", .USER, true, "local", 0⟩]
       ⟨some "alice@x.com", some "wrong"⟩ 0 =
       ⟨.error ⟨"Invalid email or password", 401⟩, []⟩) ∧
    (login defaultConfig (fun p h => h = "hash-" ++ p)
       [⟨"u1", "alice", "alice@x.com", some "hash-secret", .USER, false, "local", 0⟩]
       ⟨some "alice@x.com", some "secret"⟩ 0 =
       ⟨.error ⟨"Your account has been deactivated. Please contact support.", 403⟩, []⟩) ∧
    (login defaultConfig (fun p h => h = "hash-" ++ p)
       [⟨"u1", "alice", "alice@x.com", some "hash-secret", .USER, true, "local", 0⟩]
       ⟨some "alice@x.com", some "secret"⟩ 0 =
       ⟨.ok (200, ⟨⟨"u1", "alice", "alice@x.com", .USER⟩,
           generateAccessToken defaultConfig ⟨"u1", "alice@x.com", .USER⟩ 0⟩),
         [⟨"jwt", generateRefreshToken defaultConfig "u1" 0,
           loginCookieOptions defaultConfig⟩]⟩) :=
  ⟨(login_responses _ _ [] _ 0 (by decide) (by decide)).1 (by decide),
   (login_responses _ _ _ _ 0 (by decide) (by decide)).2.1
     ⟨"u1", "alice", "alice@x.com", some "hash-secret", .USER, true, "local", 0⟩
     (by decide) (by decide),
   (login_responses _ _ _ _ 0 (by decide) (by decide)).2.2.1
     ⟨"u1", "alice", "alice@x.com", some "hash-secret", .USER, false, "local", 0⟩
     (by decide) (by decide) rfl,
   ((login_responses _ _ _ _ 0 (by decide) (by decide)).2.2.2
     ⟨"u1", "alice", "alice@x.com", some "hash-secret", .USER, true, "local", 0⟩
     (by decide) (by decide) rfl).1⟩

/-- C9: a `PATCH /users/:id/status` request whose path id equals the
caller's own identity id fails with status 400 for every body — both
boolean `isActive` values (self-ban and self-reactivation alike) and
non-boolean bodies — and it does so before any store access: the stored
identities are returned unchanged and the outcome is independent of the
store contents. -/
theorem self_status_always_400 (db db2 : List UserRec) (req : StatusRequest)
    (cl : Claims) (hu : req.user = some cl) (hid : req.paramsId = cl.userId) :
    (∀ b, req.bodyIsActive = .jsBool b →
       updateUserStatus db req =
         (⟨.error ⟨"Admins cannot ban themselves", 400⟩, []⟩, db)) ∧
    (req.bodyIsActive = .jsOther →
       updateUserStatus db req =
         (⟨.error ⟨"isActive must be a boolean value", 400⟩, []⟩, db)) ∧
    ((updateUserStatus db req).1 = (updateUserStatus db2 req).1) := by
  refine ⟨?_, fun hb => by simp [updateUserStatus, hb], ?_⟩
  · intro b hb
    simp [updateUserStatus, hb, hu, hid]
  · cases hb : req.bodyIsActive <;> simp [updateUserStatus, hb, hu, hid]

/-- Witness for C9: an admin targeting their own id with `isActive = true`
(self-reactivation) is refused with 400, the store (here holding their own
active record) is unchanged, and the outcome equals the outcome on an
empty store. -/
theorem self_status_always_400_witness :
    (updateUserStatus
       [⟨"a1", "root", "root@x.com", some "h", .ADMIN, true, "local", 0⟩]
       ⟨"a1", .jsBool true, some (.access ⟨"a1", "root@x.com", .ADMIN⟩)⟩ =
       (⟨.error ⟨"Admins cannot ban themselves", 400⟩, []⟩,
        [⟨"a1", "root", "root@x.com", some "h", .ADMIN, true, "local", 0⟩])) ∧
    ((updateUserStatus
       [⟨"a1", "root", "root@x.com", some "h", .ADMIN, true, "local", 0⟩]
       ⟨"a1", .jsBool true, some (.access ⟨"a1", "root@x.com", .ADMIN⟩)⟩).1 =
     (updateUserStatus []
       ⟨"a1", .jsBool true, some (.access ⟨"a1", "root@x.com", .ADMIN⟩)⟩).1) :=
  ⟨(self_status_always_400 _ [] _ (.access ⟨"a1", "root@x.com", .ADMIN⟩)
      rfl rfl).1 true rfl,
   (self_status_always_400 _ [] _ (.access ⟨"a1", "root@x.com", .ADMIN⟩)
      rfl rfl).2.2⟩

/-- C10: when a request passes `protect` with a verifying access token
whose subject id matches no stored identity, `getMe` fails with the 404
"User not found" error (not 401); when the subject exists, the 200
response carries the refetched record's id, username, email, role,
isActive and createdAt — the record's current values, not the token's
claims. -/
theorem getMe_refetched_record (cfg : Config) (decode : String → Option Jwt)
    (now : Nat) (db : List UserRec) :
    (∀ c : Claims, findById db c.userId = none →
       getMe db (some c) = ⟨.error ⟨"User not found", 404⟩, []⟩) ∧
    (∀ (c : Claims) u, findById db c.userId = some u →
       getMe db (some c) =
         ⟨.ok (200, ⟨u._id, u.username, u.email, u.role, u.isActive, u.createdAt⟩), []⟩) ∧
    (∀ req h c, req.authorization = some h → jsStartsWith h "Bearer " = true →
       bearerToken h ≠ "" →
       verifyAccessTokenStr cfg decode (bearerToken h) now = .ok c →
       findById db c.userId = none →
       protect cfg decode now req = .proceed { req with user := some c } ∧
       getMe db (some c) = ⟨.error ⟨"User not found", 404⟩, []⟩) := by
  refine ⟨fun c hf => by simp [getMe, hf], fun c u hf => by simp [getMe, hf], ?_⟩
  intro req h c hreq hb htok hv hf
  exact ⟨by simp [protect, hreq, hb, htok, hv], by simp [getMe, hf]⟩

/-- Witness for C10: a verifying token for a vanished subject reaches the
handler and gets 404; a token whose claims carry a stale email/role still
returns the stored record's current values. -/
theorem getMe_refetched_record_witness :
    (getMe [] (some (.access ⟨"ghost", "g@x.com", .USER⟩)) =
       ⟨.error ⟨"User not found", 404⟩, []⟩) ∧
    (getMe [⟨"u1", "alice", "new@x.com", none, .MERCHANT, false, "local", 7⟩]
       (some (.access ⟨"u1", "old@x.com", .USER⟩)) =
       ⟨.ok (200, ⟨"u1", "alice", "new@x.com", .MERCHANT, false, 7⟩), []⟩) ∧
    (protect defaultConfig
        (fun s => if s = "tok" then
            some (generateAccessToken defaultConfig ⟨"ghost", "g@x.com", .USER⟩ 0)
          else none) 1 ⟨some "Bearer tok", none⟩ =
       .proceed ⟨some "Bearer tok", some (.access ⟨"ghost", "g@x.com", .USER⟩)⟩ ∧
     getMe [] (some (.access ⟨"ghost", "g@x.com", .USER⟩)) =
       ⟨.error ⟨"User not found", 404⟩, []⟩) :=
  ⟨(getMe_refetched_record defaultConfig (fun _ => none) 0 []).1 _ rfl,
   (getMe_refetched_record defaultConfig (fun _ => none) 0 _).2.1
     (.access ⟨"u1", "old@x.com", .USER⟩)
     ⟨"u1", "alice", "new@x.com", none, .MERCHANT, false, "local", 7⟩ (by decide),
   (getMe_refetched_record defaultConfig _ 1 []).2.2 _ _
     (.access ⟨"ghost", "g@x.com", .USER⟩)
     rfl (by decide) (by decide) (by decide) rfl⟩

/-- C8 (evaluation of the code at the failing input): with the in-memory
token empty, the session store empty, and durable `localStorage` holding
`accessToken = "stale-token"`, the request interceptor reads the token
from `localStorage` — durable client storage — attaches it as the bearer
credential of the outgoing call, and copies it into the in-memory
variable.  This contradicts the module's own header ("in-memory, not
localStorage to prevent XSS") and the spec's "never in durable client
storage". -/
theorem interceptor_reads_localStorage :
    (requestInterceptor ⟨none, [], [("accessToken", "stale-token")]⟩ =
       (some "Bearer stale-token",
        ⟨some "stale-token", [], [("accessToken", "stale-token")]⟩)) ∧
    (setTokens ⟨none, [], []⟩ "fresh" = ⟨some "fresh", [("accessToken", "fresh")], []⟩) := by
  decide

/-- Helper: running a concatenation of event lists is sequential
composition. -/
theorem runEvents_append (es fs : List OrchEvent) :
    ∀ st, runEvents st (es ++ fs) =
      match runEvents st es with
      | none => none
      | some st1 => runEvents st1 fs := by
  induction es with
  | nil => intro st; rfl
  | cons e t ih =>
      intro st
      simp only [List.cons_append, runEvents]
      cases orchStep st e with
      | none => rfl
      | some st1 => exact ih st1

/-- Helper: while a refresh is in flight, handling further 401s only moves
those calls to `queuedUp` and appends them (in arrival order) to the FIFO
queue; the refresh counter, the flag and the token storage are untouched. -/
theorem runEvents_enqueue (rest : List Nat) :
    ∀ st : OrchState, st.isRefreshing = true →
    (∀ i ∈ rest, st.phase i = .got401) → rest.Nodup →
    ∃ st2, runEvents st (rest.map OrchEvent.handle401) = some st2 ∧
      (∀ j, st2.phase j = if j ∈ rest then .queuedUp else st.phase j) ∧
      st2.failedQueue = st.failedQueue ++ rest ∧
      st2.isRefreshing = true ∧
      st2.refreshCalls = st.refreshCalls ∧
      st2.store = st.store := by
  induction rest with
  | nil =>
      intro st h1 _ _
      exact ⟨st, rfl, fun j => by simp, by simp, h1, rfl, rfl⟩
  | cons a t ih =>
      intro st h1 h2 h3
      have ha : st.phase a = .got401 := h2 a (by simp)
      have hat : a ∉ t := (List.nodup_cons.mp h3).1
      have htn : t.Nodup := (List.nodup_cons.mp h3).2
      refine Exists.imp ?_ (ih { st with
          phase := fun j => if j = a then .queuedUp else st.phase j
          failedQueue := st.failedQueue ++ [a] }
        h1 (fun i hi => by
          have : i ≠ a := fun he => hat (he ▸ hi)
          simpa [this] using h2 i (List.mem_cons_of_mem a hi)) htn)
      intro st2 hprops
      obtain ⟨hrun, hphase, hqueue, href, hcalls, hstore⟩ := hprops
      refine ⟨?_, ?_, ?_, href, hcalls, hstore⟩
      · simp only [List.map_cons, runEvents, orchStep, ha, h1]
        simpa [h1] using hrun
      · intro j
        rw [hphase j]
        by_cases hjt : j ∈ t <;> by_cases hja : j = a <;>
          simp [hjt, hja, List.mem_cons]
      · rw [hqueue]
        simp

/-- C1: in a refresh cycle in which `n ≥ 2` concurrent calls have all
received a 401 at the same logical instant and their interceptor callbacks
run in an arbitrary order, the orchestrator issues exactly one refresh call
(`refreshCalls = 1`): the first callback becomes the initiator and every
other call is enqueued.  When the refresh resolves successfully, every one
of the `n` calls — the initiator and every queued call, none lost — is
released exactly once into a retry carrying the same newly stored token,
which is exactly the token then held in memory and session storage; when
the refresh fails, every one of the `n` calls is rejected with the refresh
error, the queue is drained and the stored tokens are cleared. -/
theorem single_flight_refresh (n : Nat) (hn : 2 ≤ n) (order : List Nat)
    (hperm : order.Perm (List.range n)) (tok err : String) :
    (∃ st, runEvents initOrch
        (order.map OrchEvent.handle401 ++ [OrchEvent.refreshOk tok]) = some st ∧
      st.refreshCalls = 1 ∧ st.isRefreshing = false ∧ st.failedQueue = [] ∧
      (∀ j < n, st.phase j = .retried tok) ∧
      st.store = ⟨some tok, [("accessToken", tok)], []⟩) ∧
    (∃ st, runEvents initOrch
        (order.map OrchEvent.handle401 ++ [OrchEvent.refreshErr err]) = some st ∧
      st.refreshCalls = 1 ∧ st.isRefreshing = false ∧ st.failedQueue = [] ∧
      (∀ j < n, st.phase j = .rejectedWith err) ∧
      st.store = ⟨none, [], []⟩) := by
  have hnodup : order.Nodup := hperm.nodup_iff.mpr (List.nodup_range n)
  have hlen : order.length = n := by
    rw [hperm.length_eq, List.length_range]
  obtain ⟨o, rest, rfl⟩ : ∃ o rest, order = o :: rest := by
    cases order with
    | nil => simp at hlen; omega
    | cons o rest => exact ⟨o, rest, rfl⟩
  have hor : o ∉ rest := (List.nodup_cons.mp hnodup).1
  have hrest : rest.Nodup := (List.nodup_cons.mp hnodup).2
  -- the first callback initiates the single refresh
  have hstep1 : orchStep initOrch (.handle401 o) = some
      { phase := fun j => if j = o then .initiating else .got401
        isRefreshing := true
        failedQueue := []
        refreshCalls := 1
        store := ⟨none, [], []⟩ } := by
    simp only [orchStep, initOrch]
    rfl
  -- the remaining callbacks enqueue
  obtain ⟨st2, hrun2, hphase2, hqueue2, href2, hcalls2, hstore2⟩ :=
    runEvents_enqueue rest
      { phase := fun j => if j = o then .initiating else .got401
        isRefreshing := true
        failedQueue := []
        refreshCalls := 1
        store := ⟨none, [], []⟩ }
      rfl
      (fun i hi => by
        have : i ≠ o := fun he => hor (he ▸ hi)
        simp [this])
      hrest
  have hmem : ∀ j, j < n → st2.phase j = .initiating ∨ j ∈ st2.failedQueue := by
    intro j hj
    have hjo : j ∈ o :: rest := hperm.mem_iff.mpr (List.mem_range.mpr hj)
    rcases List.mem_cons.mp hjo with hjo | hjr
    · left
      rw [hphase2 j, hjo]
      simp [hor]
    · right
      rw [hqueue2]
      simpa using hjr
  constructor
  · -- refresh succeeds
    refine ⟨{ phase := fun j =>
                if st2.phase j = .initiating ∨ j ∈ st2.failedQueue then .retried tok
                else st2.phase j
              isRefreshing := false
              failedQueue := []
              refreshCalls := st2.refreshCalls
              store := setTokens st2.store tok }, ?_, hcalls2, rfl, rfl, ?_, ?_⟩
    · simp only [List.map_cons, List.cons_append, runEvents, hstep1, List.append_eq]
      rw [runEvents_append, hrun2]
      simp [runEvents, orchStep, href2]
    · intro j hj
      exact if_pos (hmem j hj)
    · rw [hstore2]
      rfl
  · -- refresh fails
    refine ⟨{ phase := fun j =>
                if st2.phase j = .initiating ∨ j ∈ st2.failedQueue then .rejectedWith err
                else st2.phase j
              isRefreshing := false
              failedQueue := []
              refreshCalls := st2.refreshCalls
              store := clearTokens st2.store }, ?_, hcalls2, rfl, rfl, ?_, ?_⟩
    · simp only [List.map_cons, List.cons_append, runEvents, hstep1, List.append_eq]
      rw [runEvents_append, hrun2]
      simp [runEvents, orchStep, href2]
    · intro j hj
      exact if_pos (hmem j hj)
    · rw [hstore2]
      rfl

/-- Witness for C1: two concurrent 401s handled in arrival order `1, 0`
produce exactly one refresh call; on success both calls retry with the new
token, on failure both are rejected and the tokens are cleared. -/
theorem single_flight_refresh_witness :
    (∃ st, runEvents initOrch
        ([1, 0].map OrchEvent.handle401 ++ [OrchEvent.refreshOk "newTok"]) = some st ∧
      st.refreshCalls = 1 ∧ st.isRefreshing = false ∧ st.failedQueue = [] ∧
      (∀ j < 2, st.phase j = .retried "newTok") ∧
      st.store = ⟨some "newTok", [("accessToken", "newTok")], []⟩) ∧
    (∃ st, runEvents initOrch
        ([1, 0].map OrchEvent.handle401 ++ [OrchEvent.refreshErr "boom"]) = some st ∧
      st.refreshCalls = 1 ∧ st.isRefreshing = false ∧ st.failedQueue = [] ∧
      (∀ j < 2, st.phase j = .rejectedWith "boom") ∧
      st.store = ⟨none, [], []⟩) :=
  single_flight_refresh 2 (by decide) [1, 0] (by decide) "newTok" "boom"

end SecureAuthGateway
